import Mathlib

/-!
Shallow embedding of the contact search / update logic of the
`web_modul_14` contacts backend (`src/repository/contacts.py`).

The database session is modelled as a `List Contact` in store-native
order; a `db.query(Contact).filter(p).all()` call becomes `db.filter p`
(SQLAlchemy returns matching rows in store order).  Text columns are
modelled as `List Char`.  SQL `LIKE` (used unescaped by
`get_contact_by_some_info` via `Contact.first_name.like(f'%{some_info}%')`)
is modelled by `likeMatch`, where `'%'` matches any run of characters and
`'_'` matches any single character, all other characters literally
(standard SQL LIKE with no ESCAPE clause, case-sensitive collation).
Python `datetime.date` values are modelled by `PyDate`;
`date.replace(year=y)`, which raises `ValueError` when the resulting
day is out of range for the month (February 29 in a non-leap year),
is modelled by `PyDate.replaceYear` returning `Option`; day-level date
subtraction is modelled via the proleptic-Gregorian ordinal
`PyDate.toOrdinal` (Python's `date.toordinal`).
-/

/-- A Python `datetime.date`: proleptic Gregorian calendar date. -/
structure PyDate where
  year : Nat
  month : Nat
  day : Nat
deriving DecidableEq

/-- Gregorian leap-year rule, as implemented by Python's `calendar.isleap`
and used by `datetime.date`. -/
def isLeapYear (y : Nat) : Bool :=
  y % 4 == 0 && (y % 100 != 0 || y % 400 == 0)

/-- Number of days in month `m` of year `y` (Python `calendar.monthrange`). -/
def daysInMonth (y m : Nat) : Nat :=
  if m == 2 then (if isLeapYear y then 29 else 28)
  else if m == 4 || m == 6 || m == 9 || m == 11 then 30
  else 31

/-- Days in year `y` strictly before month `m`. -/
def daysBeforeMonth (y m : Nat) : Nat :=
  (List.range (m - 1)).foldl (fun acc i => acc + daysInMonth y (i + 1)) 0

/-- Proleptic Gregorian ordinal of a date, day 1 being 0001-01-01:
Python's `date.toordinal`.  Subtracting two ordinals gives the
calendar-day difference that `date - date` (a `timedelta`) carries. -/
def PyDate.toOrdinal (d : PyDate) : Nat :=
  365 * (d.year - 1) + (d.year - 1) / 4 - (d.year - 1) / 100 + (d.year - 1) / 400
    + daysBeforeMonth d.year d.month + d.day

/-- Python `date.replace(year=y)`: keeps month and day, substitutes the
year, and fails (raises `ValueError: day is out of range for month`)
when the day does not exist in that month of the new year — the only
failure case for a valid input date is February 29 in a non-leap year. -/
def PyDate.replaceYear (d : PyDate) (y : Nat) : Option PyDate :=
  if d.day ≤ daysInMonth y d.month then some { d with year := y } else none

/-- The `users` row, as used by `src/repository/contacts.py`: only the
`id` column is read by the verified functions.  Modelled from the spec:
`src/database/models.py` is not part of the examined sources; the spec's
data model lists further attributes (email, avatar, confirmation flag,
refresh token) that the contact logic never touches. -/
structure User where
  id : Nat
deriving DecidableEq

/-- The `contacts` row.  Modelled from the spec for the column types
(`src/database/models.py` is absent): text columns, a calendar-date
birthday, an integer primary key `id` and owner foreign key `user_id` —
exactly the attributes `src/repository/contacts.py` reads and writes. -/
structure Contact where
  id : Nat
  user_id : Nat
  first_name : List Char
  second_name : List Char
  email : List Char
  phone : List Char
  birthday : PyDate
  description : List Char
deriving DecidableEq

/-- The pydantic `ContactModel` request body.  Modelled from the spec and
the unit tests (`src/schemas.py` is absent): the six contact payload
fields plus a `user_id` field that `update_contact` ignores. -/
structure ContactModel where
  first_name : List Char
  second_name : List Char
  email : List Char
  phone : List Char
  birthday : PyDate
  description : List Char
  user_id : Nat
deriving DecidableEq

/-- SQL `LIKE` pattern matching (no ESCAPE clause): `'%'` matches any
run of characters (`anySuffix` tries every suffix of the remaining
string), `'_'` matches exactly one character, every other pattern
character matches itself.  `likeMatch p s = true` iff string `s`
matches pattern `p`. -/
def anySuffix (f : List Char → Bool) : List Char → Bool
  | [] => f []
  | c :: t => f (c :: t) || anySuffix f t

def likeMatch : List Char → List Char → Bool
  | [], s => s.isEmpty
  | a :: p, s =>
    if a = '%' then anySuffix (likeMatch p) s
    else
      match s with
      | [] => false
      | c :: t => ((a = '_' : Bool) || (a = c : Bool)) && likeMatch p t

/-- The pattern `f'%{some_info}%'` built by `get_contact_by_some_info`. -/
def likePat (some_info : List Char) : List Char :=
  '%' :: (some_info ++ ['%'])

/-- `startsWith n h = true` iff `n` is a prefix of `h` (spec-side notion,
used to define verbatim substring occurrence). -/
def startsWith : List Char → List Char → Bool
  | [], _ => true
  | _ :: _, [] => false
  | a :: n, c :: h => (a = c : Bool) && startsWith n h

/-- `occursIn n h = true` iff `n` occurs verbatim as a contiguous
substring of `h` (spec-side notion of "contains F as a substring"). -/
def occursIn (n : List Char) : List Char → Bool
  | [] => n.isEmpty
  | c :: h => startsWith n (c :: h) || occursIn n h

/-- A fragment is LIKE-literal when it contains no SQL wildcard. -/
def likeLiteral (f : List Char) : Bool :=
  f.all fun a => !(a = '%' : Bool) && !(a = '_' : Bool)

/-- `update_contact(contact_id, body, db, user)`: finds the first contact
with the given id owned by `user`; if found, overwrites its six payload
fields from `body` and then executes the source's `contact.user_id =
contact.id` assignment; returns the updated store and the returned row. -/
def applyUpdate (body : ContactModel) (c : Contact) : Contact :=
  { c with
    first_name := body.first_name
    second_name := body.second_name
    email := body.email
    phone := body.phone
    birthday := body.birthday
    description := body.description
    user_id := c.id }

/-- Replace the first element satisfying `p` by `c'` (the in-place
mutation of the matched row, as seen by the committed store). -/
def replaceFirst (p : Contact → Bool) (c' : Contact) : List Contact → List Contact
  | [] => []
  | x :: xs => if p x then c' :: xs else x :: replaceFirst p c' xs

def update_contact (contact_id : Nat) (body : ContactModel)
    (db : List Contact) (user : User) : List Contact × Option Contact :=
  let q := fun c : Contact => c.id == contact_id && c.user_id == user.id
  match db.find? q with
  | none => (db, none)
  | some c =>
    let c' := applyUpdate body c
    (replaceFirst q c' db, some c')

/-- `get_contact_by_some_info(some_info, db, user)`: three `LIKE`-filtered
owner-scoped queries (first name, second name, email), appended in that
order.  The source's `if info_by_first_name:` guards before the append
loops are no-ops (appending an empty list changes nothing). -/
def get_contact_by_some_info (some_info : List Char)
    (db : List Contact) (user : User) : List Contact :=
  let byFirst := db.filter fun c =>
    likeMatch (likePat some_info) c.first_name && c.user_id == user.id
  let bySecond := db.filter fun c =>
    likeMatch (likePat some_info) c.second_name && c.user_id == user.id
  let byEmail := db.filter fun c =>
    likeMatch (likePat some_info) c.email && c.user_id == user.id
  byFirst ++ bySecond ++ byEmail

/-- The loop body of `get_birthday_per_week` over the owner's contacts in
store order: for each contact, substitute today's year into its birthday
(which may raise), take the delta in days against today, and keep the
contact when `timedelta(0) <= delta <= timedelta(days)`. -/
def birthdayFilter (days : Int) (today : PyDate) :
    List Contact → Except String (List Contact)
  | [] => Except.ok []
  | c :: rest =>
    match c.birthday.replaceYear today.year with
    | none => Except.error "day is out of range for month"
    | some b =>
      match birthdayFilter days today rest with
      | Except.error e => Except.error e
      | Except.ok res =>
        if 0 ≤ (b.toOrdinal : Int) - (today.toOrdinal : Int) ∧
            (b.toOrdinal : Int) - (today.toOrdinal : Int) ≤ days
        then Except.ok (c :: res)
        else Except.ok res

/-- `get_birthday_per_week(days, db, user)` with the wall-clock read
`datetime.now()` made an explicit `today` parameter: queries all contacts
owned by `user`, then filters them by `birthdayFilter`.  A `ValueError`
from the year substitution is modelled as `Except.error`. -/
def get_birthday_per_week (days : Int) (db : List Contact)
    (user : User) (today : PyDate) : Except String (List Contact) :=
  birthdayFilter days today (db.filter fun c => c.user_id == user.id)

/-- The Boolean window test on a single contact: year-substituted
birthday exists and its day delta against `today` lies in `[0, days]`. -/
def inWindow (days : Int) (today : PyDate) (c : Contact) : Bool :=
  match c.birthday.replaceYear today.year with
  | none => false
  | some b =>
    decide (0 ≤ (b.toOrdinal : Int) - (today.toOrdinal : Int) ∧
      (b.toOrdinal : Int) - (today.toOrdinal : Int) ≤ days)

/-! ### Supporting lemmas: SQL LIKE vs verbatim substring occurrence -/

theorem likeMatch_pct_cons (p s : List Char) :
    likeMatch ('%' :: p) s = anySuffix (likeMatch p) s := by
  simp [likeMatch]

theorem anySuffix_congr {f g : List Char → Bool} (h : ∀ t, f t = g t) :
    ∀ s, anySuffix f s = anySuffix g s
  | [] => by simp [anySuffix, h]
  | c :: t => by simp [anySuffix, h, anySuffix_congr h t]

theorem likeMatch_append_pct (F : List Char) (hF : likeLiteral F = true) :
    ∀ s, likeMatch (F ++ ['%']) s = startsWith F s := by
  induction F with
  | nil =>
    have htriv : ∀ t, anySuffix (likeMatch []) t = true := by
      intro t
      induction t with
      | nil => rfl
      | cons c t iht =>
        rw [anySuffix, iht]
        simp
    intro s
    rw [List.nil_append, likeMatch_pct_cons, htriv s]
    simp [startsWith]
  | cons a F ih =>
    simp only [likeLiteral, List.all_cons, Bool.and_eq_true, Bool.not_eq_true',
      decide_eq_false_iff_not] at hF
    obtain ⟨⟨ha1, ha2⟩, hF⟩ := hF
    intro s
    cases s with
    | nil => simp [likeMatch, startsWith, ha1]
    | cons c t =>
      simp [likeMatch, startsWith, ha1, ha2,
        ih (by simpa [likeLiteral] using hF) t]

theorem startsWith_nil_right (F : List Char) : startsWith F [] = F.isEmpty := by
  cases F <;> simp [startsWith]

theorem anySuffix_startsWith (F : List Char) :
    ∀ s, anySuffix (startsWith F) s = occursIn F s
  | [] => by simp [anySuffix, occursIn, startsWith_nil_right]
  | c :: t => by simp [anySuffix, occursIn, anySuffix_startsWith F t]

theorem likeMatch_likePat (F : List Char) (hF : likeLiteral F = true)
    (s : List Char) : likeMatch (likePat F) s = occursIn F s := by
  rw [likePat, likeMatch_pct_cons,
    anySuffix_congr (likeMatch_append_pct F hF) s, anySuffix_startsWith F s]

theorem startsWith_iff (n : List Char) : ∀ h, startsWith n h = true ↔ ∃ r, h = n ++ r := by
  induction n with
  | nil => intro h; simp [startsWith]
  | cons a n ih =>
    intro h
    cases h with
    | nil => simp [startsWith]
    | cons c t =>
      simp only [startsWith, Bool.and_eq_true, decide_eq_true_eq, ih,
        List.cons_append, List.cons.injEq]
      constructor
      · rintro ⟨rfl, r, rfl⟩; exact ⟨r, rfl, rfl⟩
      · rintro ⟨r, rfl, rfl⟩; exact ⟨rfl, r, rfl⟩

theorem occursIn_iff (n : List Char) : ∀ h, occursIn n h = true ↔ ∃ l r, h = l ++ n ++ r := by
  intro h
  induction h with
  | nil =>
    cases n <;> simp [occursIn, List.isEmpty, eq_comm, List.append_eq_nil]
  | cons c t ih =>
    simp only [occursIn, Bool.or_eq_true, startsWith_iff, ih]
    constructor
    · rintro (⟨r, hr⟩ | ⟨l, r, rfl⟩)
      · exact ⟨[], r, by simpa using hr⟩
      · exact ⟨c :: l, r, by simp⟩
    · rintro ⟨l, r, hr⟩
      cases l with
      | nil => exact Or.inl ⟨r, by simpa using hr⟩
      | cons x l =>
        simp only [List.cons_append, List.cons.injEq] at hr
        exact Or.inr ⟨l, r, hr.2⟩

/-! ### Supporting lemmas: list counting and the birthday filter -/

theorem count_filter_ite {α : Type} [BEq α] [LawfulBEq α] (p : α → Bool) (a : α)
    (l : List α) : (l.filter p).count a = if p a then l.count a else 0 := by
  by_cases h : p a = true
  · simp [List.count_filter h, h]
  · have : a ∉ l.filter p := fun hmem => h (List.of_mem_filter hmem)
    simp [List.count_eq_zero.mpr this, h]

theorem birthdayFilter_ok_of_isSome (days : Int) (today : PyDate) :
    ∀ l : List Contact, (∀ c ∈ l, (c.birthday.replaceYear today.year).isSome) →
      birthdayFilter days today l = Except.ok (l.filter (inWindow days today)) := by
  intro l
  induction l with
  | nil => intro _; simp [birthdayFilter]
  | cons c rest ih =>
    intro h
    obtain ⟨b, hb⟩ := Option.isSome_iff_exists.mp (h c (List.mem_cons_self c rest))
    have hrest := ih fun x hx => h x (List.mem_cons_of_mem c hx)
    simp only [birthdayFilter, hb, hrest]
    by_cases hcond : 0 ≤ (b.toOrdinal : Int) - (today.toOrdinal : Int) ∧
        (b.toOrdinal : Int) - (today.toOrdinal : Int) ≤ days
    · have hw : inWindow days today c = true := by
        simp only [inWindow, hb, decide_eq_true_eq]
        exact hcond
      rw [if_pos hcond, List.filter_cons_of_pos hw]
    · have hw : ¬(inWindow days today c = true) := by
        simp only [inWindow, hb, decide_eq_true_eq]
        exact hcond
      rw [if_neg hcond, List.filter_cons_of_neg hw]

theorem birthdayFilter_error_of_none (days : Int) (today : PyDate) :
    ∀ l : List Contact, ∀ c ∈ l, c.birthday.replaceYear today.year = none →
      birthdayFilter days today l = Except.error "day is out of range for month" := by
  intro l
  induction l with
  | nil => intro c hc; exact absurd hc (List.not_mem_nil c)
  | cons x rest ih =>
    intro c hc hnone
    rcases List.mem_cons.mp hc with rfl | hmem
    · simp [birthdayFilter, hnone]
    · cases hx : x.birthday.replaceYear today.year with
      | none => simp [birthdayFilter, hx]
      | some b => simp [birthdayFilter, hx, ih c hmem hnone]

theorem birthdayFilter_ok_mem (days : Int) (today : PyDate) :
    ∀ l res, birthdayFilter days today l = Except.ok res →
      ∀ c ∈ res, ∃ b, c.birthday.replaceYear today.year = some b ∧
        0 ≤ (b.toOrdinal : Int) - (today.toOrdinal : Int) ∧
        (b.toOrdinal : Int) - (today.toOrdinal : Int) ≤ days := by
  intro l
  induction l with
  | nil =>
    intro res h c hc
    simp only [birthdayFilter, Except.ok.injEq] at h
    subst h
    exact absurd hc (List.not_mem_nil c)
  | cons x rest ih =>
    intro res h c hc
    cases hx : x.birthday.replaceYear today.year with
    | none => simp [birthdayFilter, hx] at h
    | some b =>
      cases hrec : birthdayFilter days today rest with
      | error e => simp [birthdayFilter, hx, hrec] at h
      | ok res' =>
        simp only [birthdayFilter, hx, hrec] at h
        by_cases hcond : 0 ≤ (b.toOrdinal : Int) - (today.toOrdinal : Int) ∧
            (b.toOrdinal : Int) - (today.toOrdinal : Int) ≤ days
        · rw [if_pos hcond] at h
          rw [Except.ok.injEq] at h
          subst h
          rcases List.mem_cons.mp hc with rfl | hmem
          · exact ⟨b, hx, hcond⟩
          · exact ih res' hrec c hmem
        · rw [if_neg hcond] at h
          rw [Except.ok.injEq] at h
          subst h
          exact ih res' hrec c hc

theorem occursIn_nil (s : List Char) : occursIn [] s = true := by
  cases s <;> simp [occursIn, startsWith]

theorem count_search (F : List Char) (db : List Contact) (u : User) (c : Contact)
    (hown : c.user_id = u.id) :
    (get_contact_by_some_info F db u).count c =
      ((if likeMatch (likePat F) c.first_name then 1 else 0)
        + (if likeMatch (likePat F) c.second_name then 1 else 0)
        + (if likeMatch (likePat F) c.email then 1 else 0)) * db.count c := by
  have hbeq : (c.user_id == u.id) = true := by simp [hown]
  unfold get_contact_by_some_info
  rw [List.count_append, List.count_append,
    count_filter_ite, count_filter_ite, count_filter_ite]
  simp only [hbeq, Bool.and_true]
  split_ifs <;> ring

/-! ### Claim theorems -/

/-- C1: the claim says a successful `update_contact` replaces the six
payload fields and leaves `user_id` unchanged, so the contact still
belongs to `u`.  The code instead executes `contact.user_id = contact.id`:
for a user with id 1 updating their contact with id 2, the updated row
comes back with `user_id = 2`, no longer the caller's id 1, refuting the
ownership-preservation part (the six payload fields are replaced as
claimed). -/
theorem c1_update_clobbers_owner :
    (update_contact 2
        ⟨['x'], ['y'], ['z'], ['p'], ⟨1995, 8, 19⟩, ['d'], 1⟩
        [⟨2, 1, ['a'], ['b'], ['c'], ['q'], ⟨1990, 1, 1⟩, ['e']⟩]
        ⟨1⟩).2
      = some ⟨2, 2, ['x'], ['y'], ['z'], ['p'], ⟨1995, 8, 19⟩, ['d']⟩
    ∧ ¬ ((update_contact 2
        ⟨['x'], ['y'], ['z'], ['p'], ⟨1995, 8, 19⟩, ['d'], 1⟩
        [⟨2, 1, ['a'], ['b'], ['c'], ['q'], ⟨1990, 1, 1⟩, ['e']⟩]
        ⟨1⟩).2.map Contact.user_id = some 1) := by
  constructor
  · rfl
  · decide

/-- C2 (amended): every contact returned by
`get_contact_by_some_info(F, db, u)` is owned by `u`; and whenever the
fragment `F` contains no SQL LIKE wildcard (`%` or `_`), the contact
also contains `F` verbatim as a substring of its first name, second name
or email.  (As stated, the substring part fails for fragments containing
a wildcard — see the counterexample.) -/
theorem c2_search_sound (F : List Char) (db : List Contact) (u : User)
    (c : Contact) (hc : c ∈ get_contact_by_some_info F db u) :
    c.user_id = u.id ∧
      (likeLiteral F = true →
        (occursIn F c.first_name || occursIn F c.second_name
          || occursIn F c.email) = true) := by
  unfold get_contact_by_some_info at hc
  have split3 :
      (likeMatch (likePat F) c.first_name = true ∨
        likeMatch (likePat F) c.second_name = true ∨
        likeMatch (likePat F) c.email = true) ∧ (c.user_id == u.id) = true := by
    rcases List.mem_append.mp hc with hc' | hc'
    · rcases List.mem_append.mp hc' with hc'' | hc''
      · have h := (List.mem_filter.mp hc'').2
        rw [Bool.and_eq_true] at h
        exact ⟨Or.inl h.1, h.2⟩
      · have h := (List.mem_filter.mp hc'').2
        rw [Bool.and_eq_true] at h
        exact ⟨Or.inr (Or.inl h.1), h.2⟩
    · have h := (List.mem_filter.mp hc').2
      rw [Bool.and_eq_true] at h
      exact ⟨Or.inr (Or.inr h.1), h.2⟩
  refine ⟨eq_of_beq split3.2, fun hlit => ?_⟩
  rcases split3.1 with h | h | h <;>
    rw [likeMatch_likePat F hlit] at h <;> simp [h]

/-- C2 witness: a concrete owned contact found by the literal fragment
`"a"` indeed belongs to the owner and contains the fragment. -/
theorem c2_search_sound_witness :
    (⟨1, 1, ['a'], ['b'], ['c'], [], ⟨1990, 1, 1⟩, []⟩ : Contact) ∈
        get_contact_by_some_info ['a']
          [⟨1, 1, ['a'], ['b'], ['c'], [], ⟨1990, 1, 1⟩, []⟩] ⟨1⟩
    ∧ ((⟨1, 1, ['a'], ['b'], ['c'], [], ⟨1990, 1, 1⟩, []⟩ : Contact).user_id
        = (⟨1⟩ : User).id
      ∧ (likeLiteral ['a'] = true →
          (occursIn ['a'] ['a'] || occursIn ['a'] ['b']
            || occursIn ['a'] ['c']) = true)) :=
  ⟨by decide,
    c2_search_sound ['a'] [⟨1, 1, ['a'], ['b'], ['c'], [], ⟨1990, 1, 1⟩, []⟩]
      ⟨1⟩ ⟨1, 1, ['a'], ['b'], ['c'], [], ⟨1990, 1, 1⟩, []⟩ (by decide)⟩

/-- C2 counterexample: with the wildcard fragment `"%"`, a contact none
of whose fields contains `%` verbatim is still returned (LIKE `'%%%'`
matches everything), refuting the claim as stated. -/
theorem c2_counterexample :
    (⟨1, 1, ['x'], ['y'], ['z'], [], ⟨1990, 1, 1⟩, []⟩ : Contact) ∈
        get_contact_by_some_info ['%']
          [⟨1, 1, ['x'], ['y'], ['z'], [], ⟨1990, 1, 1⟩, []⟩] ⟨1⟩
    ∧ occursIn ['%'] ['x'] = false ∧ occursIn ['%'] ['y'] = false
    ∧ occursIn ['%'] ['z'] = false := by
  decide

/-- C3 (amended): the fuzzy finder's per-field test is SQL LIKE on the
pattern `'%' ++ F ++ '%'`, so `%` and `_` in the fragment act as
wildcards; for every fragment `F` free of those two wildcard characters
the match is literal: a field matches exactly when `F` occurs verbatim
(as a contiguous substring decomposition) in the field's text.  (As
stated — for *every* fragment — the claim fails; see the
counterexample.) -/
theorem c3_literal_fragment_matches_verbatim (F s : List Char)
    (hF : likeLiteral F = true) :
    likeMatch (likePat F) s = true ↔ ∃ l r, s = l ++ F ++ r := by
  rw [likeMatch_likePat F hF s, occursIn_iff]

/-- C3 witness: the wildcard-free fragment `"b"` matches `"abc"` and the
equivalence instantiates there. -/
theorem c3_literal_fragment_matches_verbatim_witness :
    likeLiteral ['b'] = true ∧
      (likeMatch (likePat ['b']) ['a', 'b', 'c'] = true ↔
        ∃ l r, ['a', 'b', 'c'] = l ++ ['b'] ++ r) :=
  ⟨by decide, c3_literal_fragment_matches_verbatim ['b'] ['a', 'b', 'c'] (by decide)⟩

/-- C3 counterexample: the fragment `"_"` is interpreted as a wildcard,
not literally: the finder returns a contact on fragment `"_"` although
no field of the contact contains an underscore, because the LIKE test
`likeMatch '%_%'` accepts `"k"` while `"_"` does not occur verbatim in
`"k"`. -/
theorem c3_counterexample :
    (⟨7, 3, ['k'], ['m'], ['n'], [], ⟨1980, 6, 2⟩, []⟩ : Contact) ∈
        get_contact_by_some_info ['_']
          [⟨7, 3, ['k'], ['m'], ['n'], [], ⟨1980, 6, 2⟩, []⟩] ⟨3⟩
    ∧ likeMatch (likePat ['_']) ['k'] = true
    ∧ occursIn ['_'] ['k'] = false := by
  decide

/-- C4: the result of `get_contact_by_some_info` is exactly the
first-name matches, then the second-name matches, then the email
matches, each sub-list a store-order filter of the database; and an
owned contact stored once that matches in exactly two of the three
fields occurs exactly twice in the result. -/
theorem c4_concat_order_and_duplicates (F : List Char) (db : List Contact)
    (u : User) :
    get_contact_by_some_info F db u =
      (db.filter fun c => likeMatch (likePat F) c.first_name && c.user_id == u.id)
      ++ (db.filter fun c => likeMatch (likePat F) c.second_name && c.user_id == u.id)
      ++ (db.filter fun c => likeMatch (likePat F) c.email && c.user_id == u.id)
    ∧ ∀ c : Contact, c.user_id = u.id → db.count c = 1 →
        ((if likeMatch (likePat F) c.first_name then 1 else 0)
          + (if likeMatch (likePat F) c.second_name then 1 else 0)
          + (if likeMatch (likePat F) c.email then 1 else 0) = 2) →
        (get_contact_by_some_info F db u).count c = 2 := by
  refine ⟨rfl, ?_⟩
  intro c hown hcount htwo
  rw [count_search F db u c hown, hcount, htwo]

/-- C4 witness: a contact matching on second name and email (but not
first name) appears exactly twice for fragment `"m"`. -/
theorem c4_concat_order_and_duplicates_witness :
    ((⟨4, 2, ['a'], ['m'], ['m'], [], ⟨1970, 2, 3⟩, []⟩ : Contact).user_id
        = (⟨2⟩ : User).id
      ∧ ([⟨4, 2, ['a'], ['m'], ['m'], [], ⟨1970, 2, 3⟩, []⟩] : List Contact).count
          ⟨4, 2, ['a'], ['m'], ['m'], [], ⟨1970, 2, 3⟩, []⟩ = 1
      ∧ (if likeMatch (likePat ['m'])
            (⟨4, 2, ['a'], ['m'], ['m'], [], ⟨1970, 2, 3⟩, []⟩ : Contact).first_name
          then 1 else 0)
        + (if likeMatch (likePat ['m'])
            (⟨4, 2, ['a'], ['m'], ['m'], [], ⟨1970, 2, 3⟩, []⟩ : Contact).second_name
          then 1 else 0)
        + (if likeMatch (likePat ['m'])
            (⟨4, 2, ['a'], ['m'], ['m'], [], ⟨1970, 2, 3⟩, []⟩ : Contact).email
          then 1 else 0) = 2)
    ∧ (get_contact_by_some_info ['m']
        [⟨4, 2, ['a'], ['m'], ['m'], [], ⟨1970, 2, 3⟩, []⟩] ⟨2⟩).count
        ⟨4, 2, ['a'], ['m'], ['m'], [], ⟨1970, 2, 3⟩, []⟩ = 2 :=
  ⟨⟨by decide, by decide, by decide⟩,
    (c4_concat_order_and_duplicates ['m']
        [⟨4, 2, ['a'], ['m'], ['m'], [], ⟨1970, 2, 3⟩, []⟩] ⟨2⟩).2
      ⟨4, 2, ['a'], ['m'], ['m'], [], ⟨1970, 2, 3⟩, []⟩
      (by decide) (by decide) (by decide)⟩

/-- C5 (amended): for a window `W ≥ 0`, provided the year substitution
succeeds for every contact owned by `U` (no February 29 birthday while
today's year is a non-leap year), `get_birthday_per_week` returns exactly
the owned contacts whose year-substituted birthday `B` satisfies
`0 ≤ B - today ≤ W`, in store-native order (the owned list filtered in
place).  (Without that proviso the claim fails: the code signals an
error instead of returning — see the counterexample.) -/
theorem c5_window_exact (W : Int) (db : List Contact) (u : User)
    (today : PyDate) (hW : 0 ≤ W)
    (hrep : ∀ c ∈ db, c.user_id = u.id →
      (c.birthday.replaceYear today.year).isSome) :
    get_birthday_per_week W db u today =
      Except.ok ((db.filter fun c => c.user_id == u.id).filter (inWindow W today)) := by
  unfold get_birthday_per_week
  refine birthdayFilter_ok_of_isSome W today _ fun c hc => ?_
  have hc' := List.mem_filter.mp hc
  exact hrep c hc'.1 (by simpa using hc'.2)

/-- C5 witness: one owned contact with birthday three days ahead, window
five days, no leap-day obstruction: the matcher returns exactly the
in-window filter of the owned list. -/
theorem c5_window_exact_witness :
    (0 : Int) ≤ 5
    ∧ (∀ c ∈ ([⟨1, 1, ['a'], ['b'], ['c'], [], ⟨1990, 3, 4⟩, []⟩] : List Contact),
        c.user_id = (⟨1⟩ : User).id →
          (c.birthday.replaceYear (⟨2023, 3, 1⟩ : PyDate).year).isSome)
    ∧ get_birthday_per_week 5
        [⟨1, 1, ['a'], ['b'], ['c'], [], ⟨1990, 3, 4⟩, []⟩] ⟨1⟩ ⟨2023, 3, 1⟩
      = Except.ok ((([⟨1, 1, ['a'], ['b'], ['c'], [], ⟨1990, 3, 4⟩, []⟩] :
            List Contact).filter fun c => c.user_id == (1 : Nat)).filter
          (inWindow 5 ⟨2023, 3, 1⟩)) :=
  ⟨by decide, by decide,
    c5_window_exact 5 [⟨1, 1, ['a'], ['b'], ['c'], [], ⟨1990, 3, 4⟩, []⟩]
      ⟨1⟩ ⟨2023, 3, 1⟩ (by decide) (by decide)⟩

/-- C5 counterexample: an owned contact born February 29 with `today` in
a non-leap year makes `get_birthday_per_week` signal the year-substitution
error instead of returning the window-filtered contacts the claim
promises for every owner, window and date. -/
theorem c5_counterexample :
    get_birthday_per_week 7
        [⟨1, 1, [], [], [], [], ⟨2020, 2, 29⟩, []⟩] ⟨1⟩ ⟨2023, 3, 1⟩
      = Except.error "day is out of range for month" := by
  rfl

/-- C6: whenever `get_birthday_per_week` returns successfully, a contact
whose year-substituted birthday falls strictly before `today` (delta
negative — in particular the `today - 1 day` boundary) is absent from
the result, for every window `W`, including windows reaching into the
next calendar year. -/
theorem c6_passed_birthday_excluded (W : Int) (db : List Contact) (u : User)
    (today : PyDate) (res : List Contact) (c : Contact) (b : PyDate)
    (hok : get_birthday_per_week W db u today = Except.ok res)
    (hb : c.birthday.replaceYear today.year = some b)
    (hneg : (b.toOrdinal : Int) - (today.toOrdinal : Int) < 0) :
    c ∉ res := by
  intro hmem
  obtain ⟨b', hb', h0, _⟩ :=
    birthdayFilter_ok_mem W today _ res hok c hmem
  rw [hb] at hb'
  cases hb'
  omega

/-- C6 witness: a contact whose birthday-this-year is yesterday is not
in the (successful, empty) result even for a 400-day window. -/
theorem c6_passed_birthday_excluded_witness :
    get_birthday_per_week 400
        [⟨8, 5, [], [], [], [], ⟨1991, 3, 9⟩, []⟩] ⟨5⟩ ⟨2023, 3, 10⟩
      = Except.ok []
    ∧ (⟨1991, 3, 9⟩ : PyDate).replaceYear (⟨2023, 3, 10⟩ : PyDate).year
      = some ⟨2023, 3, 9⟩
    ∧ ((⟨2023, 3, 9⟩ : PyDate).toOrdinal : Int)
        - ((⟨2023, 3, 10⟩ : PyDate).toOrdinal : Int) < 0
    ∧ (⟨8, 5, [], [], [], [], ⟨1991, 3, 9⟩, []⟩ : Contact) ∉ ([] : List Contact) :=
  ⟨by rfl, by rfl, by decide,
    c6_passed_birthday_excluded 400
      [⟨8, 5, [], [], [], [], ⟨1991, 3, 9⟩, []⟩] ⟨5⟩ ⟨2023, 3, 10⟩ []
      ⟨8, 5, [], [], [], [], ⟨1991, 3, 9⟩, []⟩ ⟨2023, 3, 9⟩
      (by rfl) (by rfl) (by decide)⟩

/-- C7: with the empty fragment the LIKE pattern `'%%'` matches every
field value, so each contact owned by `u` and stored once is returned
exactly three times — once by the first-name query, once by the
second-name query, once by the email query. -/
theorem c7_empty_fragment_triple (db : List Contact) (u : User) (c : Contact)
    (hown : c.user_id = u.id) (hcount : db.count c = 1) :
    (get_contact_by_some_info [] db u).count c = 3 := by
  rw [count_search [] db u c hown, hcount]
  have h1 : likeMatch (likePat []) c.first_name = true := by
    rw [likeMatch_likePat [] (by decide), occursIn_nil]
  have h2 : likeMatch (likePat []) c.second_name = true := by
    rw [likeMatch_likePat [] (by decide), occursIn_nil]
  have h3 : likeMatch (likePat []) c.email = true := by
    rw [likeMatch_likePat [] (by decide), occursIn_nil]
  rw [h1, h2, h3]
  rfl

/-- C7 witness: a single owned contact is returned three times by the
empty-fragment search. -/
theorem c7_empty_fragment_triple_witness :
    ((⟨9, 6, ['u'], ['v'], ['w'], [], ⟨1999, 9, 9⟩, []⟩ : Contact).user_id
        = (⟨6⟩ : User).id
      ∧ ([⟨9, 6, ['u'], ['v'], ['w'], [], ⟨1999, 9, 9⟩, []⟩] : List Contact).count
          ⟨9, 6, ['u'], ['v'], ['w'], [], ⟨1999, 9, 9⟩, []⟩ = 1)
    ∧ (get_contact_by_some_info []
        [⟨9, 6, ['u'], ['v'], ['w'], [], ⟨1999, 9, 9⟩, []⟩] ⟨6⟩).count
        ⟨9, 6, ['u'], ['v'], ['w'], [], ⟨1999, 9, 9⟩, []⟩ = 3 :=
  ⟨⟨by decide, by decide⟩,
    c7_empty_fragment_triple [⟨9, 6, ['u'], ['v'], ['w'], [], ⟨1999, 9, 9⟩, []⟩]
      ⟨6⟩ ⟨9, 6, ['u'], ['v'], ['w'], [], ⟨1999, 9, 9⟩, []⟩
      (by decide) (by decide)⟩

/-- C8 (amended): when no owned contact matches any of the three fields
the fuzzy finder returns the empty sequence (it is a total function, so
it never signals an error); and `get_birthday_per_week` with
`windowDays = 0` returns (without error) the in-window filter of the
owned contacts provided every owned contact's year substitution
succeeds.  (As stated the birthday half fails: with a February 29
birthday in a non-leap year the code errors even for `windowDays = 0` —
see the counterexample.) -/
theorem c8_empty_results_no_error (F : List Char) (db : List Contact)
    (u : User) (today : PyDate) :
    ((∀ c ∈ db, c.user_id = u.id →
        likeMatch (likePat F) c.first_name = false ∧
        likeMatch (likePat F) c.second_name = false ∧
        likeMatch (likePat F) c.email = false) →
      get_contact_by_some_info F db u = [])
    ∧ ((∀ c ∈ db, c.user_id = u.id →
          (c.birthday.replaceYear today.year).isSome) →
        get_birthday_per_week 0 db u today =
          Except.ok ((db.filter fun c => c.user_id == u.id).filter
            (inWindow 0 today))) := by
  constructor
  · intro hno
    unfold get_contact_by_some_info
    have h1 : (db.filter fun c =>
        likeMatch (likePat F) c.first_name && c.user_id == u.id) = [] := by
      rw [List.filter_eq_nil_iff]
      intro a ha hpa
      rw [Bool.and_eq_true] at hpa
      exact absurd hpa.1 (by simp [(hno a ha (eq_of_beq hpa.2)).1])
    have h2 : (db.filter fun c =>
        likeMatch (likePat F) c.second_name && c.user_id == u.id) = [] := by
      rw [List.filter_eq_nil_iff]
      intro a ha hpa
      rw [Bool.and_eq_true] at hpa
      exact absurd hpa.1 (by simp [(hno a ha (eq_of_beq hpa.2)).2.1])
    have h3 : (db.filter fun c =>
        likeMatch (likePat F) c.email && c.user_id == u.id) = [] := by
      rw [List.filter_eq_nil_iff]
      intro a ha hpa
      rw [Bool.and_eq_true] at hpa
      exact absurd hpa.1 (by simp [(hno a ha (eq_of_beq hpa.2)).2.2])
    rw [h1, h2, h3]
    rfl
  · intro hrep
    unfold get_birthday_per_week
    refine birthdayFilter_ok_of_isSome 0 today _ fun c hc => ?_
    have hc' := List.mem_filter.mp hc
    exact hrep c hc'.1 (by simpa using hc'.2)

/-- C8 witness: a fragment matching nothing yields the empty list, and a
zero-day window with an unobstructed birthday returns without error. -/
theorem c8_empty_results_no_error_witness :
    (∀ c ∈ ([⟨1, 1, ['a'], ['b'], ['c'], [], ⟨1990, 7, 1⟩, []⟩] : List Contact),
        c.user_id = (⟨1⟩ : User).id →
          likeMatch (likePat ['q']) c.first_name = false ∧
          likeMatch (likePat ['q']) c.second_name = false ∧
          likeMatch (likePat ['q']) c.email = false)
    ∧ (∀ c ∈ ([⟨1, 1, ['a'], ['b'], ['c'], [], ⟨1990, 7, 1⟩, []⟩] : List Contact),
        c.user_id = (⟨1⟩ : User).id →
          (c.birthday.replaceYear (⟨2023, 3, 1⟩ : PyDate).year).isSome)
    ∧ get_contact_by_some_info ['q']
        [⟨1, 1, ['a'], ['b'], ['c'], [], ⟨1990, 7, 1⟩, []⟩] ⟨1⟩ = []
    ∧ get_birthday_per_week 0
        [⟨1, 1, ['a'], ['b'], ['c'], [], ⟨1990, 7, 1⟩, []⟩] ⟨1⟩ ⟨2023, 3, 1⟩
      = Except.ok ((([⟨1, 1, ['a'], ['b'], ['c'], [], ⟨1990, 7, 1⟩, []⟩] :
            List Contact).filter fun c => c.user_id == (1 : Nat)).filter
          (inWindow 0 ⟨2023, 3, 1⟩)) :=
  ⟨by decide, by decide,
    (c8_empty_results_no_error ['q']
        [⟨1, 1, ['a'], ['b'], ['c'], [], ⟨1990, 7, 1⟩, []⟩] ⟨1⟩ ⟨2023, 3, 1⟩).1
      (by decide),
    (c8_empty_results_no_error ['q']
        [⟨1, 1, ['a'], ['b'], ['c'], [], ⟨1990, 7, 1⟩, []⟩] ⟨1⟩ ⟨2023, 3, 1⟩).2
      (by decide)⟩

/-- C8 counterexample: with an owned February 29 contact and a non-leap
`today`, the birthday matcher errors even for `windowDays = 0`, so it is
not error-free for every well-formed input as the claim states. -/
theorem c8_counterexample :
    get_birthday_per_week 0
        [⟨3, 4, [], [], [], [], ⟨2016, 2, 29⟩, []⟩] ⟨4⟩ ⟨2021, 6, 1⟩
      = Except.error "day is out of range for month" := by
  rfl

/-- C9: a contact owned by `u` whose stored birthday is February 29
makes `get_birthday_per_week` signal the `ValueError` from
`date.replace(year=...)` whenever today's year is not a leap year — the
contact is neither normalized to March 1 nor skipped. -/
theorem c9_feb29_nonleap_errors (days : Int) (db : List Contact) (u : User)
    (today : PyDate) (c : Contact) (hmem : c ∈ db) (hown : c.user_id = u.id)
    (hm : c.birthday.month = 2) (hd : c.birthday.day = 29)
    (hleap : isLeapYear today.year = false) :
    get_birthday_per_week days db u today
      = Except.error "day is out of range for month" := by
  unfold get_birthday_per_week
  refine birthdayFilter_error_of_none days today _ c ?_ ?_
  · exact List.mem_filter.mpr ⟨hmem, by simp [hown]⟩
  · have h28 : daysInMonth today.year c.birthday.month = 28 := by
      rw [hm]
      simp [daysInMonth, hleap]
    unfold PyDate.replaceYear
    rw [hd, h28, if_neg (by omega)]

/-- C9 witness: a 2020-02-29 birthday errors against a 2025 (non-leap)
today for a 30-day window. -/
theorem c9_feb29_nonleap_errors_witness :
    (⟨5, 2, [], [], [], [], ⟨2020, 2, 29⟩, []⟩ : Contact) ∈
        ([⟨5, 2, [], [], [], [], ⟨2020, 2, 29⟩, []⟩] : List Contact)
    ∧ (⟨5, 2, [], [], [], [], ⟨2020, 2, 29⟩, []⟩ : Contact).user_id
        = (⟨2⟩ : User).id
    ∧ (⟨2020, 2, 29⟩ : PyDate).month = 2
    ∧ (⟨2020, 2, 29⟩ : PyDate).day = 29
    ∧ isLeapYear (⟨2025, 1, 10⟩ : PyDate).year = false
    ∧ get_birthday_per_week 30
        [⟨5, 2, [], [], [], [], ⟨2020, 2, 29⟩, []⟩] ⟨2⟩ ⟨2025, 1, 10⟩
      = Except.error "day is out of range for month" :=
  ⟨by decide, by decide, by decide, by decide, by decide,
    c9_feb29_nonleap_errors 30 [⟨5, 2, [], [], [], [], ⟨2020, 2, 29⟩, []⟩]
      ⟨2⟩ ⟨2025, 1, 10⟩ ⟨5, 2, [], [], [], [], ⟨2020, 2, 29⟩, []⟩
      (by decide) (by decide) (by decide) (by decide) (by decide)⟩

/-- C10 (amended): for every negative window and every owner whose
contacts all survive the year substitution, `get_birthday_per_week`
returns the empty sequence without error, since no delta can satisfy
`0 ≤ delta ≤ days < 0`.  (As stated — for *every* owner — the claim
fails: the year substitution still runs and can error before the empty
window is ever consulted; see the counterexample.) -/
theorem c10_negative_window_empty (days : Int) (db : List Contact)
    (u : User) (today : PyDate) (hneg : days < 0)
    (hrep : ∀ c ∈ db, c.user_id = u.id →
      (c.birthday.replaceYear today.year).isSome) :
    get_birthday_per_week days db u today = Except.ok [] := by
  unfold get_birthday_per_week
  rw [birthdayFilter_ok_of_isSome days today _ fun c hc =>
    hrep c (List.mem_filter.mp hc).1 (by simpa using (List.mem_filter.mp hc).2)]
  congr 1
  rw [List.filter_eq_nil_iff]
  intro a _ hpa
  unfold inWindow at hpa
  rcases h : a.birthday.replaceYear today.year with _ | b
  · simp only [h] at hpa
    exact absurd hpa (by simp)
  · simp only [h, decide_eq_true_eq] at hpa
    omega

/-- C10 witness: window `-1` over a single unobstructed owned contact
returns `ok []`. -/
theorem c10_negative_window_empty_witness :
    (-1 : Int) < 0
    ∧ (∀ c ∈ ([⟨2, 7, [], [], [], [], ⟨1985, 11, 23⟩, []⟩] : List Contact),
        c.user_id = (⟨7⟩ : User).id →
          (c.birthday.replaceYear (⟨2026, 2, 14⟩ : PyDate).year).isSome)
    ∧ get_birthday_per_week (-1)
        [⟨2, 7, [], [], [], [], ⟨1985, 11, 23⟩, []⟩] ⟨7⟩ ⟨2026, 2, 14⟩
      = Except.ok [] :=
  ⟨by decide, by decide,
    c10_negative_window_empty (-1) [⟨2, 7, [], [], [], [], ⟨1985, 11, 23⟩, []⟩]
      ⟨7⟩ ⟨2026, 2, 14⟩ (by decide) (by decide)⟩

/-- C10 counterexample: a negative window does not shield the matcher
from the year-substitution error: with a February 29 contact and a
non-leap year it errors instead of returning the empty sequence. -/
theorem c10_counterexample :
    get_birthday_per_week (-3)
        [⟨6, 9, [], [], [], [], ⟨2012, 2, 29⟩, []⟩] ⟨9⟩ ⟨2027, 4, 5⟩
      = Except.error "day is out of range for month" := by
  rfl
